import Mathlib

/-!
# Verification of the baulkandcastle temporal ledger core

Shallow embedding of the ledger store (`PropertyDB.save_listings`), the two
diff classifiers (`get_daily_changes`, `get_comprehensive_daily_changes`),
the accuracy evaluator (`get_prediction_accuracy_report`) from
`baulkandcastle_scraper.py`, and the rolling aggregate calculator
(`compute_rolling_avg_price_per_m2`) from
`src/baulkandcastle/ml/feature_engineering.py`.

Modelling conventions:
* ISO `YYYY-MM-DD` date strings are compared lexicographically by SQLite,
  which coincides with chronological order; dates are therefore modelled as
  `Nat` (and as `Int` where the source subtracts a timedelta).
* SQLite tables are modelled as Lean lists of row structures; the
  `INSERT OR REPLACE` / `INSERT` / `SELECT` statements are modelled by
  explicit list operations.
* Columns that are nullable in the schema but always populated by the
  ingestion dataclass `PropertyListing` (`price_display`, `price_value`,
  `beds`, `baths`, `cars`, `agent`, `status`) are modelled as non-optional;
  columns that the dataclass itself makes optional (`land_size`,
  `property_type`, `sold_date`, `sold_date_iso`, `price_per_m2`) are
  modelled as `Option`.  SQL `!=` on a nullable column is three-valued and
  never satisfied when either side is NULL; this is modelled explicitly
  (`sqlNeOpt`).
* Python float arithmetic is modelled over `ℚ`; `round(x, 1)` is modelled
  by `round1`.  (Python uses banker's rounding at ties; no claim below
  depends on tie behaviour.)
* Python `str.strip()`/`str.lower()`/`str.upper()` are modelled over the
  character list of the string (`pyStrip`, `pyLower`, `pyUpper`); the
  inputs involved are ASCII price and suburb strings, for which the
  semantics agree.
-/

/-- Listing status: the `status` column takes the values `'sale'` / `'sold'`. -/
inductive Status where
  | sale
  | sold
deriving DecidableEq, Repr

/-- The `PropertyListing` dataclass fields that `save_listings` persists. -/
structure PropertyListing where
  id : String
  address : String
  suburb : String
  price_display : String
  price_value : Int
  bedrooms : Int
  bathrooms : Int
  parking : Int
  land_size : Option String
  property_type : Option String
  price_per_m2 : Option ℚ
  url : String
  agent : String
  scraped_at : String
  status : Status
  sold_date : Option String
  sold_date_iso : Option Nat
deriving DecidableEq, Repr

/-- A row of the `properties` table. -/
structure PropRow where
  property_id : String
  address : String
  suburb : String
  first_seen : Nat
  url : String
deriving DecidableEq, Repr

/-- A row of the `listing_history` table (PRIMARY KEY (property_id, date, status)). -/
structure HistoryRow where
  property_id : String
  date : Nat
  status : Status
  price_display : String
  price_value : Int
  beds : Int
  baths : Int
  cars : Int
  land_size : Option String
  property_type : Option String
  agent : String
  scraped_at : String
  sold_date : Option String
  sold_date_iso : Option Nat
  price_per_m2 : Option ℚ
deriving DecidableEq, Repr

/-- A row of the `xgboost_predictions` table (PRIMARY KEY property_id). -/
structure PredRow where
  property_id : String
  predicted_price : Option Int
  price_range_low : Option Int
  price_range_high : Option Int
  predicted_at : Option Nat
  model_version : Option String
deriving DecidableEq, Repr

/-- A row of the `domain_estimates` / `domain_estimates_history` tables
(the columns the accuracy evaluator selects). -/
structure EstRow where
  property_id : String
  estimate_mid : Option Int
  scraped_at : Option Nat
deriving DecidableEq, Repr

/-- The database state: the tables the verified core reads and writes. -/
structure DB where
  properties : List PropRow
  history : List HistoryRow
  xgboost_predictions : List PredRow
  domain_estimates : List EstRow
  domain_estimates_history : List EstRow
deriving DecidableEq, Repr

/-- The `listing_history` row built from a `PropertyListing` on capture date
`today`, as in both INSERT statements of `save_listings`. -/
def mkHistoryRow (l : PropertyListing) (today : Nat) : HistoryRow :=
  { property_id := l.id
    date := today
    status := l.status
    price_display := l.price_display
    price_value := l.price_value
    beds := l.bedrooms
    baths := l.bathrooms
    cars := l.parking
    land_size := l.land_size
    property_type := l.property_type
    agent := l.agent
    scraped_at := l.scraped_at
    sold_date := l.sold_date
    sold_date_iso := l.sold_date_iso
    price_per_m2 := l.price_per_m2 }

/-- Two history rows collide on the composite PRIMARY KEY
`(property_id, date, status)`. -/
def sameKey (a b : HistoryRow) : Prop :=
  a.property_id = b.property_id ∧ a.date = b.date ∧ a.status = b.status

instance : DecidablePred fun p : HistoryRow × HistoryRow => sameKey p.1 p.2 :=
  fun _ => by unfold sameKey; infer_instance

instance (a b : HistoryRow) : Decidable (sameKey a b) := by
  unfold sameKey; infer_instance

/-- Step 1 of `save_listings` for one listing: insert the `properties` core
record when `property_id` is unseen, with `first_seen := today`. -/
def ensureProperty (db : DB) (today : Nat) (l : PropertyListing) : DB :=
  if db.properties.any (fun p => p.property_id == l.id) then db
  else { db with properties :=
          { property_id := l.id, address := l.address, suburb := l.suburb,
            first_seen := today, url := l.url } :: db.properties }

/-- One step of `PropertyDB.save_listings` for a single listing `l` on
capture date `today`:
1. insert the `properties` row if the property is unseen
   (`first_seen := today`);
2. `status = 'sold'`: skip when any SOLD row for the property already
   exists, otherwise plain INSERT;
3. `status = 'sale'`: `INSERT OR REPLACE` on the composite key. -/
def insertSoldOnce (db1 : DB) (today : Nat) (l : PropertyListing) : DB :=
  if db1.history.any (fun r => r.property_id == l.id && r.status == Status.sold) then db1
  else { db1 with history := mkHistoryRow l today :: db1.history }

def upsertSale (db1 : DB) (today : Nat) (l : PropertyListing) : DB :=
  { db1 with history := mkHistoryRow l today :: db1.history.filter (fun r => !(r.property_id == l.id && r.date == today && r.status == Status.sale)) }

def saveListing (db : DB) (today : Nat) (l : PropertyListing) : DB :=
  match l.status with
  | .sold => insertSoldOnce (ensureProperty db today l) today l
  | .sale => upsertSale (ensureProperty db today l) today l

/-- `PropertyDB.save_listings`: ingest a batch of listings for capture date
`today` (the source derives `today` from the wall clock; it is passed
explicitly here). -/
def save_listings (db : DB) (today : Nat) (listings : List PropertyListing) : DB :=
  listings.foldl (fun d l => saveListing d today l) db

/-- The composite PRIMARY KEY of `listing_history` holds: no two rows share
`(property_id, date, status)`. -/
def keyUnique (h : List HistoryRow) : Prop :=
  h.Pairwise (fun a b => ¬ sameKey a b)

/-- Number of FOR_SALE rows of property `p` on calendar date `d`. -/
def saleRowCount (h : List HistoryRow) (p : String) (d : Nat) : Nat :=
  (h.filter (fun r => r.property_id == p && r.date == d && r.status == Status.sale)).length

theorem save_listings_singleton (db : DB) (today : Nat) (l : PropertyListing) :
    save_listings db today [l] = saveListing db today l := rfl

theorem ensureProperty_history (db : DB) (today : Nat) (l : PropertyListing) :
    (ensureProperty db today l).history = db.history := by
  unfold ensureProperty; split <;> rfl

theorem keyUnique_insertSoldOnce (db1 : DB) (today : Nat) (l : PropertyListing)
    (hst : l.status = Status.sold) (hu : keyUnique db1.history) :
    keyUnique (insertSoldOnce db1 today l).history := by
  unfold insertSoldOnce
  by_cases hex : db1.history.any
      (fun r => r.property_id == l.id && r.status == Status.sold) = true
  · simp only [hex, if_true]; exact hu
  · simp only [hex, if_false]
    refine List.Pairwise.cons ?_ hu
    intro b hb hkey
    rcases hkey with ⟨h1, _, h3⟩
    simp only [mkHistoryRow] at h1 h3
    refine hex (List.any_eq_true.mpr ⟨b, hb, ?_⟩)
    simp [← h1, ← h3, hst]

theorem keyUnique_upsertSale (db1 : DB) (today : Nat) (l : PropertyListing)
    (hst : l.status = Status.sale) (hu : keyUnique db1.history) :
    keyUnique (upsertSale db1 today l).history := by
  unfold upsertSale
  refine List.Pairwise.cons ?_ (List.Pairwise.filter _ hu)
  intro b hb hkey
  rw [List.mem_filter] at hb
  rcases hkey with ⟨h1, h2, h3⟩
  simp only [mkHistoryRow] at h1 h2 h3
  have := hb.2
  simp [← h1, ← h2, ← h3, hst] at this

theorem keyUnique_saveListing (db : DB) (today : Nat) (l : PropertyListing)
    (hu : keyUnique db.history) : keyUnique (saveListing db today l).history := by
  unfold saveListing
  have hu1 : keyUnique (ensureProperty db today l).history := by
    rw [ensureProperty_history]; exact hu
  cases hst : l.status with
  | sold => exact keyUnique_insertSoldOnce _ today l hst hu1
  | sale => exact keyUnique_upsertSale _ today l hst hu1

theorem keyUnique_save_listings (db : DB) (today : Nat) (ls : List PropertyListing)
    (hu : keyUnique db.history) : keyUnique (save_listings db today ls).history := by
  induction ls generalizing db with
  | nil => exact hu
  | cons l t ih => exact ih _ (keyUnique_saveListing db today l hu)

theorem saleRowCount_le_one_of_keyUnique (h : List HistoryRow) (hu : keyUnique h)
    (p : String) (d : Nat) : saleRowCount h p d ≤ 1 := by
  unfold saleRowCount
  have hpw : (h.filter (fun r => r.property_id == p && r.date == d && r.status == Status.sale)).Pairwise
      (fun a b => ¬ sameKey a b) := List.Pairwise.filter _ hu
  cases hf : h.filter (fun r => r.property_id == p && r.date == d && r.status == Status.sale) with
  | nil => simp
  | cons a t =>
      cases t with
      | nil => simp
      | cons b t2 =>
          exfalso
          rw [hf] at hpw
          have hab : ¬ sameKey a b := (List.pairwise_cons.mp hpw).1 b (by simp)
          have ha : a ∈ h.filter (fun r => r.property_id == p && r.date == d && r.status == Status.sale) := by
            rw [hf]; simp
          have hb : b ∈ h.filter (fun r => r.property_id == p && r.date == d && r.status == Status.sale) := by
            rw [hf]; simp
          have ha2 := (List.mem_filter.mp ha).2
          have hb2 := (List.mem_filter.mp hb).2
          simp only [Bool.and_eq_true, beq_iff_eq] at ha2 hb2
          exact hab ⟨ha2.1.1.trans hb2.1.1.symm, ha2.1.2.trans hb2.1.2.symm,
            ha2.2.trans hb2.2.symm⟩

theorem ensureProperty_id_present (db : DB) (today : Nat) (l : PropertyListing) :
    (ensureProperty db today l).properties.any (fun p => p.property_id == l.id) = true := by
  unfold ensureProperty
  by_cases hc : db.properties.any (fun p => p.property_id == l.id) = true
  · simp [hc]
  · simp [hc]

theorem ensureProperty_of_present (db : DB) (today : Nat) (l : PropertyListing)
    (hc : db.properties.any (fun p => p.property_id == l.id) = true) :
    ensureProperty db today l = db := by
  unfold ensureProperty; simp [hc]

theorem filter_cons_self_filter {α : Type} (P : α → Bool) (a : α) (h : List α)
    (ha : P a = false) : (a :: h.filter P).filter P = h.filter P := by
  simp [List.filter_cons, ha, List.filter_filter]

theorem upsertSale_properties (db1 : DB) (today : Nat) (l : PropertyListing) :
    (upsertSale db1 today l).properties = db1.properties := rfl

theorem upsertSale_idem (X : DB) (today : Nat) (l : PropertyListing)
    (hst : l.status = Status.sale) :
    upsertSale (upsertSale X today l) today l = upsertSale X today l := by
  have hrow : (!((mkHistoryRow l today).property_id == l.id &&
      (mkHistoryRow l today).date == today &&
      (mkHistoryRow l today).status == Status.sale)) = false := by
    simp [mkHistoryRow, hst]
  unfold upsertSale
  simp only [DB.mk.injEq, true_and, and_true]
  exact congrArg _ (filter_cons_self_filter _ _ _ hrow)

/-- C3: once a property has any SOLD row, ingesting a further SOLD record for
it is a silent no-op on the listing-history table. -/
theorem sold_rows_write_once (db : DB) (today : Nat) (l : PropertyListing)
    (hst : l.status = Status.sold)
    (hex : ∃ r ∈ db.history, r.property_id = l.id ∧ r.status = Status.sold) :
    (save_listings db today [l]).history = db.history := by
  rw [save_listings_singleton]
  unfold saveListing
  rw [hst]
  unfold insertSoldOnce
  rw [ensureProperty_history]
  obtain ⟨r, hr, hid, hsold⟩ := hex
  have hany : db.history.any (fun r => r.property_id == l.id && r.status == Status.sold) = true :=
    List.any_eq_true.mpr ⟨r, hr, by simp [hid, hsold]⟩
  simp only [hany, if_true]
  exact ensureProperty_history db today l

/-- C6: FOR_SALE ingestion is an idempotent upsert and, under the composite
primary key, a property has at most one FOR_SALE row per calendar date. -/
theorem for_sale_ingestion_idempotent_upsert (db : DB) (today : Nat) (l : PropertyListing) :
    (l.status = Status.sale →
      save_listings (save_listings db today [l]) today [l] = save_listings db today [l])
    ∧ ∀ ls : List PropertyListing, keyUnique db.history →
        keyUnique (save_listings db today ls).history ∧
        ∀ p d, saleRowCount (save_listings db today ls).history p d ≤ 1 := by
  constructor
  · intro hst
    simp only [save_listings_singleton]
    simp only [saveListing, hst]
    have h1 : ensureProperty (upsertSale (ensureProperty db today l) today l) today l
        = upsertSale (ensureProperty db today l) today l :=
      ensureProperty_of_present _ _ _
        (by rw [upsertSale_properties]; exact ensureProperty_id_present db today l)
    rw [h1, upsertSale_idem _ _ _ hst]
  · intro ls hu
    have hku := keyUnique_save_listings db today ls hu
    exact ⟨hku, fun p d => saleRowCount_le_one_of_keyUnique _ hku p d⟩

/-- A concrete FOR_SALE listing used as a test vector. -/
def listingP1sale : PropertyListing :=
  { id := "P1", address := "1 Alpha St", suburb := "CASTLE HILL",
    price_display := "$1,000,000", price_value := 1000000,
    bedrooms := 3, bathrooms := 2, parking := 1,
    land_size := some "450m2", property_type := some "house",
    price_per_m2 := none, url := "u1", agent := "AgentA", scraped_at := "t1",
    status := Status.sale, sold_date := none, sold_date_iso := none }

/-- A concrete SOLD listing for the same property. -/
def listingP1sold : PropertyListing :=
  { id := "P1", address := "1 Alpha St", suburb := "CASTLE HILL",
    price_display := "$1,100,000 (01 Jun 2024)", price_value := 1100000,
    bedrooms := 3, bathrooms := 2, parking := 1,
    land_size := some "450m2", property_type := some "house",
    price_per_m2 := none, url := "u1", agent := "AgentA", scraped_at := "t2",
    status := Status.sold, sold_date := some "01 Jun 2024", sold_date_iso := some 120 }

/-- The empty database. -/
def emptyDB : DB := { properties := [], history := [], xgboost_predictions := [],
                      domain_estimates := [], domain_estimates_history := [] }

/-- A database that already holds a SOLD row for property `P1`. -/
def dbWithSoldP1 : DB :=
  { properties := [{ property_id := "P1", address := "1 Alpha St",
                     suburb := "CASTLE HILL", first_seen := 100, url := "u1" }],
    history := [mkHistoryRow listingP1sold 100],
    xgboost_predictions := [], domain_estimates := [], domain_estimates_history := [] }

theorem for_sale_ingestion_idempotent_upsert_witness :
    listingP1sale.status = Status.sale ∧ keyUnique emptyDB.history ∧
    save_listings (save_listings emptyDB 1 [listingP1sale]) 1 [listingP1sale]
      = save_listings emptyDB 1 [listingP1sale] ∧
    keyUnique (save_listings emptyDB 1 [listingP1sale]).history ∧
    saleRowCount (save_listings emptyDB 1 [listingP1sale]).history "P1" 1 ≤ 1 := by
  refine ⟨rfl, List.Pairwise.nil, ?_, ?_, ?_⟩
  · exact (for_sale_ingestion_idempotent_upsert emptyDB 1 listingP1sale).1 rfl
  · exact (((for_sale_ingestion_idempotent_upsert emptyDB 1 listingP1sale).2
      [listingP1sale]) List.Pairwise.nil).1
  · exact (((for_sale_ingestion_idempotent_upsert emptyDB 1 listingP1sale).2
      [listingP1sale]) List.Pairwise.nil).2 "P1" 1

theorem sold_rows_write_once_witness :
    listingP1sold.status = Status.sold ∧
    (∃ r ∈ dbWithSoldP1.history, r.property_id = listingP1sold.id ∧ r.status = Status.sold) ∧
    (save_listings dbWithSoldP1 130 [listingP1sold]).history = dbWithSoldP1.history := by
  refine ⟨rfl, ⟨mkHistoryRow listingP1sold 100, by simp [dbWithSoldP1], rfl, rfl⟩, ?_⟩
  exact sold_rows_write_once dbWithSoldP1 130 listingP1sold rfl
    ⟨mkHistoryRow listingP1sold 100, by simp [dbWithSoldP1], rfl, rfl⟩

/-! ## Diff classifiers -/

/-- SQL `MAX(date)` over a list of dates: NULL on the empty set. -/
def maxDate? : List Nat → Option Nat
  | [] => none
  | d :: t =>
    match maxDate? t with
    | none => some d
    | some m => some (max d m)

theorem maxDate?_spec (l : List Nat) (m : Nat) (h : maxDate? l = some m) :
    m ∈ l ∧ ∀ d ∈ l, d ≤ m := by
  induction l generalizing m with
  | nil => simp [maxDate?] at h
  | cons a t ih =>
      unfold maxDate? at h
      cases ht : maxDate? t with
      | none =>
          rw [ht] at h
          cases t with
          | nil =>
              simp at h
              subst h
              simp
          | cons b t2 => simp [maxDate?] at ht; cases ht2 : maxDate? t2 <;> simp [ht2] at ht
      | some m2 =>
          rw [ht] at h
          simp at h
          obtain ⟨hm2, hub⟩ := ih m2 ht
          subst h
          refine ⟨?_, ?_⟩
          · rcases Nat.le_total a m2 with hle | hle
            · rw [max_eq_right hle]; exact List.mem_cons_of_mem a hm2
            · rw [max_eq_left hle]; exact List.mem_cons_self a t
          · intro d hd
            rcases List.mem_cons.mp hd with rfl | hdt
            · exact le_max_left _ _
            · exact le_trans (hub d hdt) (le_max_right _ _)

theorem maxDate?_of_mem (l : List Nat) (d : Nat) (hd : d ∈ l) :
    ∃ m, maxDate? l = some m ∧ d ≤ m := by
  induction l with
  | nil => simp at hd
  | cons a t ih =>
      unfold maxDate?
      cases ht : maxDate? t with
      | none =>
          rcases List.mem_cons.mp hd with rfl | hdt
          · exact ⟨d, rfl, le_refl d⟩
          · obtain ⟨m, hm, _⟩ := ih hdt
            rw [ht] at hm
            exact absurd hm (by simp)
      | some m2 =>
          rcases List.mem_cons.mp hd with rfl | hdt
          · exact ⟨max d m2, rfl, le_max_left _ _⟩
          · obtain ⟨m, hm, hle⟩ := ih hdt
            rw [ht] at hm
            simp at hm
            have hle2 : d ≤ m2 := by rw [hm]; exact hle
            exact ⟨max a m2, rfl, le_trans hle2 (le_max_right _ _)⟩

theorem maxDate?_eq_some (l : List Nat) (m : Nat) (hm : m ∈ l)
    (hub : ∀ d ∈ l, d ≤ m) : maxDate? l = some m := by
  obtain ⟨m2, h2, hle⟩ := maxDate?_of_mem l m hm
  obtain ⟨hmem2, _⟩ := maxDate?_spec l m2 h2
  have : m2 = m := le_antisymm (hub m2 hmem2) hle
  rw [h2, this]

/-- The JOIN against the `properties` table (PRIMARY KEY `property_id`). -/
def hasProp (db : DB) (pid : String) : Bool :=
  db.properties.any (fun p => p.property_id == pid)

/-- The JOIN against `properties` restricted to `p.first_seen = target`. -/
def firstSeenToday (db : DB) (pid : String) (target : Nat) : Bool :=
  db.properties.any (fun p => p.property_id == pid && p.first_seen == target)

/-- `SELECT MAX(date) FROM listing_history WHERE property_id = ? AND date < ?`:
the property's own most recent date strictly before `target`. -/
def maxPropPrior (db : DB) (pid : String) (target : Nat) : Option Nat :=
  maxDate? ((db.history.filter (fun r => r.property_id == pid && decide (r.date < target))).map (fun r => r.date))

/-- `SELECT MAX(date) FROM listing_history WHERE date < ?`: the single global
previous capture date used by `get_comprehensive_daily_changes`. -/
def globalPrior (db : DB) (target : Nat) : Option Nat :=
  maxDate? ((db.history.filter (fun r => decide (r.date < target))).map (fun r => r.date))

/-- SQL `!=` on a nullable TEXT column: three-valued, never satisfied when
either side is NULL. -/
def sqlNeOpt (a b : Option String) : Bool :=
  match a, b with
  | some x, some y => x != y
  | _, _ => false

/-- The change condition of the ADJUSTMENT query of `get_daily_changes`. -/
def adjustmentDiffer (hn hp : HistoryRow) : Bool :=
  hn.price_display != hp.price_display || hn.status != hp.status ||
    hn.beds != hp.beds || hn.baths != hp.baths || hn.cars != hp.cars ||
    sqlNeOpt hn.land_size hp.land_size

/-- Result of `PropertyDB.get_daily_changes`: the NEW rows and the
ADJUSTMENT (now, prev) row pairs. -/
structure DailyChanges where
  new : List HistoryRow
  adjustments : List (HistoryRow × HistoryRow)
deriving DecidableEq, Repr

/-- `PropertyDB.get_daily_changes(target_date)`: NEW = rows on `target` whose
property was first seen on `target`; ADJUSTMENT = each row on `target` paired
with the same property's row at its own `MAX(date) < target`, when any of
price display / status / beds / baths / cars / land size differs. -/
def get_daily_changes (db : DB) (target : Nat) : DailyChanges :=
  { new := db.history.filter
      (fun h => h.date == target && firstSeenToday db h.property_id target)
    adjustments := (db.history.filter
        (fun hn => hn.date == target && hasProp db hn.property_id)).flatMap
      (fun hn => (db.history.filter
          (fun hp => hp.property_id == hn.property_id &&
            maxPropPrior db hn.property_id target == some hp.date &&
            adjustmentDiffer hn hp)).map (fun hp => (hn, hp))) }

/-- Python `str.strip()` whitespace set (ASCII). -/
def isPySpace (c : Char) : Bool :=
  c == ' ' || c == '\t' || c == '\n' || c == '\r' ||
    c.toNat == 11 || c.toNat == 12

/-- Python `str.strip()`: drop leading and trailing whitespace. -/
def pyStrip (s : String) : String :=
  ⟨((s.data.dropWhile isPySpace).reverse.dropWhile isPySpace).reverse⟩

/-- Python `str.lower()` on the ASCII strings produced by the price parser. -/
def asciiLower (c : Char) : Char :=
  if 65 ≤ c.toNat && c.toNat ≤ 90 then Char.ofNat (c.toNat + 32) else c

def pyLower (s : String) : String := ⟨s.data.map asciiLower⟩

/-- `(d.get('old_price') or '').strip()` followed by `.lower()`: the
normalization applied before comparing display prices. -/
def normDisp (s : String) : String := pyLower (pyStrip s)

/-- How the comprehensive classifier buckets one (prev, now) FOR_SALE pair. -/
inductive PriceClass where
  | skip
  | change
  | guide
deriving DecidableEq, Repr

/-- The branch chain of `get_comprehensive_daily_changes` over one pair:
skip when the normalized displays coincide; then real value change, guide
revealed (0 → positive), or price hidden (positive → 0). -/
def classifyPricePair (hp hn : HistoryRow) : PriceClass :=
  if normDisp hp.price_display == normDisp hn.price_display then .skip
  else if decide (hp.price_value > 0) && decide (hn.price_value > 0) &&
      hp.price_value != hn.price_value then .change
  else if hp.price_value == 0 && decide (hn.price_value > 0) then .guide
  else if hn.price_value == 0 && decide (hp.price_value > 0) then .change
  else .skip

/-- The (now, prev) pairs of the SOLD-transition query: SOLD row on `target`
joined with the same property's FOR_SALE row on the global previous date. -/
def soldPairs (db : DB) (target prevDate : Nat) : List (HistoryRow × HistoryRow) :=
  (db.history.filter (fun hn => hn.date == target && hn.status == Status.sold &&
      hasProp db hn.property_id)).flatMap
    (fun hn => (db.history.filter (fun hp => hp.property_id == hn.property_id &&
        hp.date == prevDate && hp.status == Status.sale)).map (fun hp => (hn, hp)))

/-- The (now, prev) pairs scanned by the PRICE CHANGES query: FOR_SALE row on
`target` joined with the same property's FOR_SALE row on the global previous
date. -/
def salePairs (db : DB) (target prevDate : Nat) : List (HistoryRow × HistoryRow) :=
  (db.history.filter (fun hn => hn.date == target && hn.status == Status.sale &&
      hasProp db hn.property_id)).flatMap
    (fun hn => (db.history.filter (fun hp => hp.property_id == hn.property_id &&
        hp.date == prevDate && hp.status == Status.sale)).map (fun hp => (hn, hp)))

/-- Result of `PropertyDB.get_comprehensive_daily_changes`. -/
structure CompChanges where
  new : List HistoryRow
  sold : List (HistoryRow × HistoryRow)
  disappeared : List HistoryRow
  price_changes : List (HistoryRow × HistoryRow)
  guide_revealed : List (HistoryRow × HistoryRow)
deriving DecidableEq, Repr

/-- `PropertyDB.get_comprehensive_daily_changes(target_date)`: computes the
global previous capture date, bootstraps when none exists, and otherwise
fills the five categories exactly as the source's five queries and the
price-classification loop do. -/
def get_comprehensive_daily_changes (db : DB) (target : Nat) : CompChanges :=
  match globalPrior db target with
  | none =>
      { new := db.history.filter (fun h => h.date == target &&
            h.status == Status.sale && hasProp db h.property_id)
        sold := [], disappeared := [], price_changes := [], guide_revealed := [] }
  | some prevDate =>
      { new := db.history.filter (fun h => h.date == target &&
            firstSeenToday db h.property_id target)
        sold := soldPairs db target prevDate
        disappeared := db.history.filter (fun hp => hp.date == prevDate &&
            hp.status == Status.sale && hasProp db hp.property_id &&
            !(db.history.any (fun hn2 => hn2.property_id == hp.property_id &&
              hn2.date == target)))
        price_changes := (salePairs db target prevDate).filter
          (fun q => classifyPricePair q.2 q.1 == PriceClass.change)
        guide_revealed := (salePairs db target prevDate).filter
          (fun q => classifyPricePair q.2 q.1 == PriceClass.guide) }

/-- The property ids of a list of (now, prev) pairs. -/
def pids (l : List (HistoryRow × HistoryRow)) : List String :=
  l.map (fun q => q.1.property_id)

theorem keyUnique_eq_of_sameKey (h : List HistoryRow) (hu : keyUnique h)
    (a b : HistoryRow) (ha : a ∈ h) (hb : b ∈ h) (hk : sameKey a b) : a = b := by
  by_contra hne
  have hsymm : Symmetric (fun x y : HistoryRow => ¬ sameKey x y) := by
    intro x y hxy hyx
    exact hxy ⟨hyx.1.symm, hyx.2.1.symm, hyx.2.2.symm⟩
  exact (List.Pairwise.forall hsymm hu ha hb hne) hk

theorem mem_salePairs (db : DB) (target prevDate : Nat) (a b : HistoryRow) :
    (a, b) ∈ salePairs db target prevDate ↔
      a ∈ db.history ∧ a.date = target ∧ a.status = Status.sale ∧
      hasProp db a.property_id = true ∧
      b ∈ db.history ∧ b.property_id = a.property_id ∧ b.date = prevDate ∧
      b.status = Status.sale := by
  simp only [salePairs, List.mem_flatMap, List.mem_map, List.mem_filter,
    Bool.and_eq_true, beq_iff_eq, Prod.mk.injEq]
  constructor
  · rintro ⟨hn, ⟨hmem, ⟨hd, hs⟩, hprop⟩, hp, ⟨hpmem, ⟨hpid, hpd⟩, hps⟩, rfl, rfl⟩
    exact ⟨hmem, hd, hs, hprop, hpmem, hpid, hpd, hps⟩
  · rintro ⟨hmem, hd, hs, hprop, hpmem, hpid, hpd, hps⟩
    exact ⟨a, ⟨hmem, ⟨hd, hs⟩, hprop⟩, b, ⟨hpmem, ⟨hpid, hpd⟩, hps⟩, rfl, rfl⟩

theorem mem_adjustments (db : DB) (target : Nat) (a b : HistoryRow) :
    (a, b) ∈ (get_daily_changes db target).adjustments ↔
      a ∈ db.history ∧ a.date = target ∧ hasProp db a.property_id = true ∧
      b ∈ db.history ∧ b.property_id = a.property_id ∧
      maxPropPrior db a.property_id target = some b.date ∧
      adjustmentDiffer a b = true := by
  simp only [get_daily_changes, List.mem_flatMap, List.mem_map, List.mem_filter,
    Bool.and_eq_true, beq_iff_eq, Prod.mk.injEq]
  constructor
  · rintro ⟨hn, ⟨hmem, hd, hprop⟩, hp, ⟨hpmem, ⟨⟨hpid, hmax⟩, hdif⟩⟩, rfl, rfl⟩
    exact ⟨hmem, hd, hprop, hpmem, hpid, hmax, hdif⟩
  · rintro ⟨hmem, hd, hprop, hpmem, hpid, hmax, hdif⟩
    exact ⟨a, ⟨hmem, hd, hprop⟩, b, ⟨hpmem, ⟨⟨hpid, by rw [hmax]⟩, hdif⟩⟩, rfl, rfl⟩

theorem comp_price_changes_eq (db : DB) (target prevDate : Nat)
    (hprev : globalPrior db target = some prevDate) :
    (get_comprehensive_daily_changes db target).price_changes =
      (salePairs db target prevDate).filter
        (fun q => classifyPricePair q.2 q.1 == PriceClass.change) := by
  unfold get_comprehensive_daily_changes
  rw [hprev]

theorem comp_guide_revealed_eq (db : DB) (target prevDate : Nat)
    (hprev : globalPrior db target = some prevDate) :
    (get_comprehensive_daily_changes db target).guide_revealed =
      (salePairs db target prevDate).filter
        (fun q => classifyPricePair q.2 q.1 == PriceClass.guide) := by
  unfold get_comprehensive_daily_changes
  rw [hprev]

theorem classify_skip_of_norm_eq (hp hn : HistoryRow)
    (h : normDisp hp.price_display = normDisp hn.price_display) :
    classifyPricePair hp hn = PriceClass.skip := by
  simp [classifyPricePair, h]

theorem classify_guide_iff (hp hn : HistoryRow)
    (h : normDisp hp.price_display ≠ normDisp hn.price_display)
    (h0 : hp.price_value = 0) (hpos : 0 < hn.price_value) :
    classifyPricePair hp hn = PriceClass.guide := by
  simp [classifyPricePair, h, h0, hpos]

theorem classify_hidden_change (hp hn : HistoryRow)
    (h : normDisp hp.price_display ≠ normDisp hn.price_display)
    (hpos : 0 < hp.price_value) (h0 : hn.price_value = 0) :
    classifyPricePair hp hn = PriceClass.change := by
  have : ¬ (0:Int) < (0:Int) := lt_irrefl 0
  simp [classifyPricePair, h, h0, hpos, Int.ne_of_gt hpos]

/-- In the price-classification loop, a pair classified at all has distinct
normalized displays. -/
theorem classify_not_skip_norm_ne (hp hn : HistoryRow)
    (h : classifyPricePair hp hn ≠ PriceClass.skip) :
    normDisp hp.price_display ≠ normDisp hn.price_display := by
  intro heq
  exact h (classify_skip_of_norm_eq hp hn heq)

theorem mem_pids (l : List (HistoryRow × HistoryRow)) (p : String) :
    p ∈ pids l ↔ ∃ q ∈ l, q.1.property_id = p := by
  simp [pids, List.mem_map]

/-- Under the composite primary key, a property contributes at most one
(now, prev) pair to the price-classification scan, and that pair is
determined by the property id. -/
theorem salePairs_pid_unique (db : DB) (target prevDate : Nat)
    (hu : keyUnique db.history) (a b a2 b2 : HistoryRow)
    (h1 : (a, b) ∈ salePairs db target prevDate)
    (h2 : (a2, b2) ∈ salePairs db target prevDate)
    (hpid : a2.property_id = a.property_id) : a2 = a ∧ b2 = b := by
  rw [mem_salePairs] at h1 h2
  obtain ⟨ha, had, has, _, hb, hbid, hbd, hbs⟩ := h1
  obtain ⟨ha2, had2, has2, _, hb2, hbid2, hbd2, hbs2⟩ := h2
  have hAa : a2 = a := keyUnique_eq_of_sameKey db.history hu a2 a ha2 ha
    ⟨hpid, had2.trans had.symm, has2.trans has.symm⟩
  refine ⟨hAa, keyUnique_eq_of_sameKey db.history hu b2 b hb2 hb
    ⟨?_, hbd2.trans hbd.symm, hbs2.trans hbs.symm⟩⟩
  rw [hbid2, hbid, hpid]

/-- C4: on a classified pair with distinct normalized displays, the
unknown→known transition lands in GUIDE_REVEALED and never PRICE_CHANGE,
the known→unknown transition lands in PRICE_CHANGE and never
GUIDE_REVEALED, and the two categories are disjoint. -/
theorem guide_revealed_price_change_exclusive (db : DB) (target prevDate : Nat)
    (hu : keyUnique db.history) (hprev : globalPrior db target = some prevDate) :
    (∀ hn hp : HistoryRow, (hn, hp) ∈ salePairs db target prevDate →
      normDisp hp.price_display ≠ normDisp hn.price_display →
      ((hp.price_value = 0 → 0 < hn.price_value →
          hn.property_id ∈ pids (get_comprehensive_daily_changes db target).guide_revealed ∧
          hn.property_id ∉ pids (get_comprehensive_daily_changes db target).price_changes) ∧
        (0 < hp.price_value → hn.price_value = 0 →
          hn.property_id ∈ pids (get_comprehensive_daily_changes db target).price_changes ∧
          hn.property_id ∉ pids (get_comprehensive_daily_changes db target).guide_revealed)))
    ∧ ∀ p : String,
        ¬(p ∈ pids (get_comprehensive_daily_changes db target).price_changes ∧
          p ∈ pids (get_comprehensive_daily_changes db target).guide_revealed) := by
  rw [comp_price_changes_eq db target prevDate hprev,
    comp_guide_revealed_eq db target prevDate hprev]
  constructor
  · intro hn hp hmem hnorm
    constructor
    · intro h0 hpos
      have hcl : classifyPricePair hp hn = PriceClass.guide :=
        classify_guide_iff hp hn hnorm h0 hpos
      constructor
      · rw [mem_pids]
        exact ⟨(hn, hp), List.mem_filter.mpr ⟨hmem, by simp [hcl]⟩, rfl⟩
      · rw [mem_pids]
        rintro ⟨⟨a2, b2⟩, hq, hqid⟩
        have hq2 := List.mem_filter.mp hq
        obtain ⟨ha, hb⟩ := salePairs_pid_unique db target prevDate hu hn hp a2 b2
          hmem hq2.1 hqid
        have := hq2.2
        rw [ha, hb, hcl] at this
        simp at this
    · intro hpos h0
      have hcl : classifyPricePair hp hn = PriceClass.change :=
        classify_hidden_change hp hn hnorm hpos h0
      constructor
      · rw [mem_pids]
        exact ⟨(hn, hp), List.mem_filter.mpr ⟨hmem, by simp [hcl]⟩, rfl⟩
      · rw [mem_pids]
        rintro ⟨⟨a2, b2⟩, hq, hqid⟩
        have hq2 := List.mem_filter.mp hq
        obtain ⟨ha, hb⟩ := salePairs_pid_unique db target prevDate hu hn hp a2 b2
          hmem hq2.1 hqid
        have := hq2.2
        rw [ha, hb, hcl] at this
        simp at this
  · rintro p ⟨hc, hg⟩
    rw [mem_pids] at hc hg
    obtain ⟨⟨a, b⟩, hqc, hac⟩ := hc
    obtain ⟨⟨a2, b2⟩, hqg, hag⟩ := hg
    have hc2 := List.mem_filter.mp hqc
    have hg2 := List.mem_filter.mp hqg
    obtain ⟨ha, hb⟩ := salePairs_pid_unique db target prevDate hu a b a2 b2
      hc2.1 hg2.1 (hag.trans hac.symm)
    have h1 := hc2.2
    have h2 := hg2.2
    rw [ha, hb] at h2
    simp at h1 h2
    rw [h1] at h2
    exact PriceClass.noConfusion h2

/-- C7: a (prev, now) FOR_SALE pair whose display prices agree after
trimming and case-folding is short-circuited to no classification, and the
property never appears in PRICE_CHANGE. -/
theorem price_change_case_whitespace_guard (db : DB) (target prevDate : Nat)
    (hu : keyUnique db.history) (hprev : globalPrior db target = some prevDate)
    (hn hp : HistoryRow) (hmem : (hn, hp) ∈ salePairs db target prevDate)
    (hnorm : normDisp hp.price_display = normDisp hn.price_display) :
    classifyPricePair hp hn = PriceClass.skip ∧
    hn.property_id ∉ pids (get_comprehensive_daily_changes db target).price_changes := by
  have hcl := classify_skip_of_norm_eq hp hn hnorm
  refine ⟨hcl, ?_⟩
  rw [comp_price_changes_eq db target prevDate hprev, mem_pids]
  rintro ⟨⟨a2, b2⟩, hq, hqid⟩
  have hq2 := List.mem_filter.mp hq
  obtain ⟨ha, hb⟩ := salePairs_pid_unique db target prevDate hu hn hp a2 b2
    hmem hq2.1 hqid
  have := hq2.2
  rw [ha, hb, hcl] at this
  simp at this

/-- Base history row used to build concrete test vectors. -/
def baseRow : HistoryRow :=
  { property_id := "X", date := 0, status := Status.sale,
    price_display := "", price_value := 0, beds := 3, baths := 2, cars := 1,
    land_size := some "450m2", property_type := some "house", agent := "A",
    scraped_at := "t", sold_date := none, sold_date_iso := none,
    price_per_m2 := none }

def rowGprev : HistoryRow :=
  { baseRow with
    property_id := "G"
    date := 10
    price_display := "Auction"
    price_value := 0 }

def rowGnow : HistoryRow :=
  { baseRow with
    property_id := "G"
    date := 20
    price_display := "$1,500,000"
    price_value := 1500000 }

def rowHprev : HistoryRow :=
  { baseRow with
    property_id := "H"
    date := 10
    price_display := "$900,000"
    price_value := 900000 }

def rowHnow : HistoryRow :=
  { baseRow with
    property_id := "H"
    date := 20
    price_display := "Contact Agent"
    price_value := 0 }

def propG : PropRow :=
  { property_id := "G", address := "2 Beta St", suburb := "BAULKHAM HILLS",
    first_seen := 10, url := "uG" }

def propH : PropRow :=
  { property_id := "H", address := "3 Gamma St", suburb := "CASTLE HILL",
    first_seen := 10, url := "uH" }

/-- Concrete ledger with a guide-revealed and a price-hidden transition
between capture dates 10 and 20. -/
def dbC4 : DB :=
  { properties := [propG, propH],
    history := [rowGprev, rowGnow, rowHprev, rowHnow],
    xgboost_predictions := [], domain_estimates := [],
    domain_estimates_history := [] }

theorem guide_revealed_price_change_exclusive_witness :
    keyUnique dbC4.history ∧ globalPrior dbC4 20 = some 10 ∧
    "G" ∈ pids (get_comprehensive_daily_changes dbC4 20).guide_revealed ∧
    "G" ∉ pids (get_comprehensive_daily_changes dbC4 20).price_changes ∧
    "H" ∈ pids (get_comprehensive_daily_changes dbC4 20).price_changes ∧
    "H" ∉ pids (get_comprehensive_daily_changes dbC4 20).guide_revealed := by
  have hu : keyUnique dbC4.history := by unfold keyUnique; decide
  have hprev : globalPrior dbC4 20 = some 10 := by decide
  have hthm := guide_revealed_price_change_exclusive dbC4 20 10 hu hprev
  have hG := (hthm.1 rowGnow rowGprev (by decide) (by decide)).1 (by decide) (by decide)
  have hH := (hthm.1 rowHnow rowHprev (by decide) (by decide)).2 (by decide) (by decide)
  exact ⟨hu, hprev, hG.1, hG.2, hH.1, hH.2⟩

def rowKprev : HistoryRow :=
  { baseRow with
    property_id := "K"
    date := 10
    price_display := "$1,500,000"
    price_value := 1500000 }

def rowKnow : HistoryRow :=
  { baseRow with
    property_id := "K"
    date := 20
    price_display := " $1,500,000  "
    price_value := 1500000 }

def propK : PropRow :=
  { property_id := "K", address := "4 Delta St", suburb := "CASTLE HILL",
    first_seen := 10, url := "uK" }

/-- Concrete ledger whose day-20 snapshot differs from day 10 only by
whitespace in the display price. -/
def dbC7 : DB :=
  { properties := [propK],
    history := [rowKprev, rowKnow],
    xgboost_predictions := [], domain_estimates := [],
    domain_estimates_history := [] }

theorem price_change_case_whitespace_guard_witness :
    keyUnique dbC7.history ∧ globalPrior dbC7 20 = some 10 ∧
    normDisp rowKprev.price_display = normDisp rowKnow.price_display ∧
    classifyPricePair rowKprev rowKnow = PriceClass.skip ∧
    "K" ∉ pids (get_comprehensive_daily_changes dbC7 20).price_changes := by
  have hu : keyUnique dbC7.history := by unfold keyUnique; decide
  have h := price_change_case_whitespace_guard dbC7 20 10 hu (by decide)
    rowKnow rowKprev (by decide) (by decide)
  exact ⟨hu, by decide, by decide, h.1, h.2⟩

theorem mem_soldPairs (db : DB) (target prevDate : Nat) (a b : HistoryRow) :
    (a, b) ∈ soldPairs db target prevDate ↔
      a ∈ db.history ∧ a.date = target ∧ a.status = Status.sold ∧
      hasProp db a.property_id = true ∧
      b ∈ db.history ∧ b.property_id = a.property_id ∧ b.date = prevDate ∧
      b.status = Status.sale := by
  simp only [soldPairs, List.mem_flatMap, List.mem_map, List.mem_filter,
    Bool.and_eq_true, beq_iff_eq, Prod.mk.injEq]
  constructor
  · rintro ⟨hn, ⟨hmem, ⟨hd, hs⟩, hprop⟩, hp, ⟨hpmem, ⟨hpid, hpd⟩, hps⟩, rfl, rfl⟩
    exact ⟨hmem, hd, hs, hprop, hpmem, hpid, hpd, hps⟩
  · rintro ⟨hmem, hd, hs, hprop, hpmem, hpid, hpd, hps⟩
    exact ⟨a, ⟨hmem, ⟨hd, hs⟩, hprop⟩, b, ⟨hpmem, ⟨hpid, hpd⟩, hps⟩, rfl, rfl⟩

/-- A row on the global previous capture date realizes the property's own
`MAX(date) < target` as well, since no row anywhere is dated between the
global previous date and `target`. -/
theorem maxPropPrior_of_globalPrior (db : DB) (target pd : Nat) (pid : String)
    (hg : globalPrior db target = some pd)
    (b : HistoryRow) (hb : b ∈ db.history) (hbid : b.property_id = pid)
    (hbd : b.date = pd) : maxPropPrior db pid target = some pd := by
  unfold globalPrior at hg
  have hspec := maxDate?_spec _ pd hg
  have hpdlt : pd < target := by
    obtain ⟨r, hr, hrd⟩ := List.mem_map.mp hspec.1
    have := (List.mem_filter.mp hr).2
    rw [hrd] at this
    exact of_decide_eq_true this
  unfold maxPropPrior
  apply maxDate?_eq_some
  · refine List.mem_map.mpr ⟨b, List.mem_filter.mpr ⟨hb, ?_⟩, hbd⟩
    simp [hbid, hbd, hpdlt]
  · intro d hd
    obtain ⟨r, hr, hrd⟩ := List.mem_map.mp hd
    have hr2 := (List.mem_filter.mp hr).2
    simp only [Bool.and_eq_true, beq_iff_eq] at hr2
    refine hspec.2 d (List.mem_map.mpr ⟨r, List.mem_filter.mpr
      ⟨(List.mem_filter.mp hr).1, hr2.2⟩, hrd⟩)

/-- C5: every property in PRICE_CHANGE or GUIDE_REVEALED also appears as an
ADJUSTMENT of the coarse daily change list for the same date. -/
theorem price_categories_subset_adjustments (db : DB) (target : Nat) (p : String)
    (hmem : p ∈ pids (get_comprehensive_daily_changes db target).price_changes ∨
        p ∈ pids (get_comprehensive_daily_changes db target).guide_revealed) :
    ∃ q ∈ (get_daily_changes db target).adjustments, q.1.property_id = p := by
  cases hg : globalPrior db target with
  | none =>
      exfalso
      unfold get_comprehensive_daily_changes at hmem
      rw [hg] at hmem
      simp [pids] at hmem
  | some pd =>
      have hpair : ∃ a b, (a, b) ∈ salePairs db target pd ∧
          classifyPricePair b a ≠ PriceClass.skip ∧ a.property_id = p := by
        rcases hmem with hc | hc
        · rw [comp_price_changes_eq db target pd hg, mem_pids] at hc
          obtain ⟨⟨a, b⟩, hq, hqp⟩ := hc
          have h2 := List.mem_filter.mp hq
          refine ⟨a, b, h2.1, ?_, hqp⟩
          have := h2.2
          simp only [beq_iff_eq] at this
          rw [this]
          exact fun hcc => PriceClass.noConfusion hcc
        · rw [comp_guide_revealed_eq db target pd hg, mem_pids] at hc
          obtain ⟨⟨a, b⟩, hq, hqp⟩ := hc
          have h2 := List.mem_filter.mp hq
          refine ⟨a, b, h2.1, ?_, hqp⟩
          have := h2.2
          simp only [beq_iff_eq] at this
          rw [this]
          exact fun hcc => PriceClass.noConfusion hcc
      obtain ⟨a, b, hab, hcl, hap⟩ := hpair
      rw [mem_salePairs] at hab
      obtain ⟨ha, had, _, hprop, hb, hbid, hbd, _⟩ := hab
      have hnorm := classify_not_skip_norm_ne b a hcl
      have hraw : a.price_display ≠ b.price_display := by
        intro he
        exact hnorm (by rw [he])
      refine ⟨(a, b), ?_, hap⟩
      rw [mem_adjustments]
      refine ⟨ha, had, hprop, hb, hbid, ?_, ?_⟩
      · rw [hbd]
        exact maxPropPrior_of_globalPrior db target pd a.property_id hg b hb hbid hbd
      · unfold adjustmentDiffer
        simp [bne_iff_ne, hraw]

theorem price_categories_subset_adjustments_witness :
    "G" ∈ pids (get_comprehensive_daily_changes dbC4 20).guide_revealed ∧
    ∃ q ∈ (get_daily_changes dbC4 20).adjustments, q.1.property_id = "G" := by
  have hmem : "G" ∈ pids (get_comprehensive_daily_changes dbC4 20).guide_revealed := by
    decide
  exact ⟨hmem, price_categories_subset_adjustments dbC4 20 "G" (Or.inr hmem)⟩

def rowP1 : HistoryRow :=
  { baseRow with
    property_id := "P"
    date := 10
    price_display := "$1,000,000"
    price_value := 1000000 }

def rowP2 : HistoryRow :=
  { baseRow with
    property_id := "P"
    date := 20
    price_display := "$1,100,000"
    price_value := 1100000 }

def rowQ : HistoryRow :=
  { baseRow with
    property_id := "Q"
    date := 15
    price_display := "$500,000"
    price_value := 500000 }

def propP : PropRow :=
  { property_id := "P", address := "5 Epsilon St", suburb := "CASTLE HILL",
    first_seen := 10, url := "uP" }

def propQ : PropRow :=
  { property_id := "Q", address := "6 Zeta St", suburb := "BAULKHAM HILLS",
    first_seen := 15, url := "uQ" }

/-- Concrete ledger with an observation gap: property `P` was last observed
on date 10, another property `Q` on date 15, and `P` reappears with a new
price on the target date 20. -/
def dbGap : DB :=
  { properties := [propP, propQ],
    history := [rowP1, rowP2, rowQ],
    xgboost_predictions := [], domain_estimates := [],
    domain_estimates_history := [] }

/-- C2 counterexample: in `dbGap` on target date 20, property `P`'s snapshot
satisfies every per-property comparison premise against its own most recent
prior record (date 10, a genuine price change), yet the comprehensive
classifier emits nothing for `P` in any category, because it only compares
against the single global previous date 15. -/
theorem per_property_prior_comparison_counterexample :
    rowP2 ∈ dbGap.history ∧ rowP2.property_id = "P" ∧ rowP2.date = 20 ∧
    rowP2.status = Status.sale ∧ hasProp dbGap "P" = true ∧
    rowP1 ∈ dbGap.history ∧ rowP1.property_id = "P" ∧
    rowP1.status = Status.sale ∧
    maxPropPrior dbGap "P" 20 = some rowP1.date ∧
    classifyPricePair rowP1 rowP2 = PriceClass.change ∧
    globalPrior dbGap 20 = some 15 ∧
    "P" ∉ pids (get_comprehensive_daily_changes dbGap 20).price_changes ∧
    "P" ∉ pids (get_comprehensive_daily_changes dbGap 20).guide_revealed ∧
    "P" ∉ (get_comprehensive_daily_changes dbGap 20).disappeared.map
      (fun r => r.property_id) := by
  decide

/-- C2 amended: the coarse `get_daily_changes` ADJUSTMENT query does compare
each property against that property's own most recent prior record (sound
and complete), while `get_comprehensive_daily_changes` compares only against
the single global previous capture date: every prior row it pairs (for
PRICE_CHANGE, GUIDE_REVEALED and SOLD) is dated exactly at that global date. -/
theorem per_property_prior_comparison_amended (db : DB) (target : Nat) :
    (∀ q ∈ (get_daily_changes db target).adjustments,
        q.2.property_id = q.1.property_id ∧
        maxPropPrior db q.1.property_id target = some q.2.date) ∧
    (∀ hn hp : HistoryRow, hn ∈ db.history → hn.date = target →
        hasProp db hn.property_id = true → hp ∈ db.history →
        hp.property_id = hn.property_id →
        maxPropPrior db hn.property_id target = some hp.date →
        adjustmentDiffer hn hp = true →
        (hn, hp) ∈ (get_daily_changes db target).adjustments) ∧
    (∀ q : HistoryRow × HistoryRow,
        q ∈ (get_comprehensive_daily_changes db target).price_changes ∨
        q ∈ (get_comprehensive_daily_changes db target).guide_revealed ∨
        q ∈ (get_comprehensive_daily_changes db target).sold →
        globalPrior db target = some q.2.date) := by
  refine ⟨?_, ?_, ?_⟩
  · rintro ⟨a, b⟩ hq
    rw [mem_adjustments] at hq
    exact ⟨hq.2.2.2.2.1, hq.2.2.2.2.2.1⟩
  · intro hn hp h1 h2 h3 h4 h5 h6 h7
    rw [mem_adjustments]
    exact ⟨h1, h2, h3, h4, h5, h6, h7⟩
  · rintro ⟨a, b⟩ hq
    cases hg : globalPrior db target with
    | none =>
        exfalso
        unfold get_comprehensive_daily_changes at hq
        rw [hg] at hq
        simp at hq
    | some pd =>
        have hbd : b.date = pd := by
          rcases hq with hc | hc | hc
          · rw [comp_price_changes_eq db target pd hg] at hc
            exact ((mem_salePairs db target pd a b).mp
              (List.mem_filter.mp hc).1).2.2.2.2.2.2.1
          · rw [comp_guide_revealed_eq db target pd hg] at hc
            exact ((mem_salePairs db target pd a b).mp
              (List.mem_filter.mp hc).1).2.2.2.2.2.2.1
          · unfold get_comprehensive_daily_changes at hc
            rw [hg] at hc
            exact ((mem_soldPairs db target pd a b).mp hc).2.2.2.2.2.2.1
        rw [hbd]

theorem per_property_prior_comparison_amended_witness :
    ((rowP2, rowP1) ∈ (get_daily_changes dbGap 20).adjustments ∧
      maxPropPrior dbGap "P" 20 = some 10) ∧
    (rowHnow, rowHprev) ∈ (get_comprehensive_daily_changes dbC4 20).price_changes ∧
    globalPrior dbC4 20 = some 10 := by
  have hthm := per_property_prior_comparison_amended dbGap 20
  have h2 := hthm.2.1 rowP2 rowP1 (by decide) (by decide) (by decide) (by decide)
    (by decide) (by decide) (by decide)
  have h1 := hthm.1 (rowP2, rowP1) h2
  have hc : (rowHnow, rowHprev) ∈ (get_comprehensive_daily_changes dbC4 20).price_changes := by
    decide
  have h3 := (per_property_prior_comparison_amended dbC4 20).2.2 (rowHnow, rowHprev)
    (Or.inl hc)
  exact ⟨⟨h2, h1.2⟩, hc, h3⟩

/-! ## Accuracy evaluator -/

/-- `ORDER BY <key> DESC LIMIT 1`: the first row attaining the maximal key
(ties cannot arise under the table primary keys). -/
def latestBy {α : Type} (key : α → Int) : List α → Option α
  | [] => none
  | a :: t =>
    match latestBy key t with
    | none => some a
    | some b => if key a < key b then some b else some a

/-- SQLite ordering key for a nullable date column: NULL sorts below every
value. -/
def optKey : Option Nat → Int
  | none => -1
  | some n => (n : Int)

/-- Insertion sort used to model `ORDER BY` (stable). -/
def insertOrd {α : Type} (le : α → α → Bool) (a : α) : List α → List α
  | [] => [a]
  | b :: t => if le a b then a :: b :: t else b :: insertOrd le a t

def sortByOrd {α : Type} (le : α → α → Bool) (l : List α) : List α :=
  l.foldr (insertOrd le) []

/-- `SELECT DISTINCT`: keep the first occurrence of each row value. -/
def dedupAcc {α : Type} [DecidableEq α] (seen : List α) : List α → List α
  | [] => []
  | a :: t => if a ∈ seen then dedupAcc seen t else a :: dedupAcc (a :: seen) t

/-- Python `round(x, 1)` over `ℚ`: round to one decimal place (Python uses
banker's rounding at exact ties; tie behaviour is immaterial to the claims). -/
def round1 (x : ℚ) : ℚ := ((x * 10 + 1 / 2 : ℚ).floor : ℚ) / 10

/-- `round((estimate - actual) / actual * 100, 1)`. -/
def pctError (est actual : Int) : ℚ :=
  round1 (((est : ℚ) - (actual : ℚ)) / (actual : ℚ) * 100)

/-- One entry of the `comparisons` list of the accuracy report. -/
structure Comparison where
  property_id : String
  address : String
  suburb : String
  sold_price : Int
  sold_date : Option String
  sold_date_iso : Nat
  beds : Int
  baths : Int
  cars : Int
  property_type : Option String
  listed_price : Option Int
  listed_display : Option String
  xgboost_price : Option Int
  xgboost_date : Option Nat
  domain_estimate : Option Int
  domain_date : Option Nat
  listed_error_pct : Option ℚ
  xgboost_error_pct : Option ℚ
  domain_error_pct : Option ℚ
deriving DecidableEq, Repr

/-- The per-sold-property body of the accuracy loop: the three comparison
sources.  The listed-price query takes the property's most recent FOR_SALE
row by date with no date bound; the XGBoost and Domain lookups take the
latest record by timestamp with no date bound; Python truthiness on the
selected numeric values is modelled explicitly. -/
def mkComparison (db : DB) (p : PropRow) (hs : HistoryRow) : Comparison :=
  let sold_price := hs.price_value
  let listing := latestBy (fun r => (r.date : Int))
    (db.history.filter (fun r => r.property_id == p.property_id &&
      r.status == Status.sale))
  let xgb := latestBy (fun r => optKey r.predicted_at)
    (db.xgboost_predictions.filter (fun r => r.property_id == p.property_id))
  let domain :=
    match latestBy (fun (r : EstRow) => optKey r.scraped_at)
        (db.domain_estimates_history.filter (fun r => r.property_id == p.property_id)) with
    | some d => some d
    | none => (db.domain_estimates.filter
        (fun (r : EstRow) => r.property_id == p.property_id)).head?
  let listedFields : Option Int × Option String × Option ℚ :=
    match listing with
    | none => (none, none, none)
    | some L =>
        if 0 < L.price_value then
          (some L.price_value, some L.price_display,
            some (pctError L.price_value sold_price))
        else (none, some L.price_display, none)
  let xgbFields : Option Int × Option Nat × Option ℚ :=
    match xgb with
    | none => (none, none, none)
    | some x =>
        match x.predicted_price with
        | none => (none, none, none)
        | some v =>
            if v = 0 then (none, none, none)
            else (some v, x.predicted_at, some (pctError v sold_price))
  let domainFields : Option Int × Option Nat × Option ℚ :=
    match domain with
    | none => (none, none, none)
    | some d =>
        match d.estimate_mid with
        | none => (none, none, none)
        | some v =>
            if v = 0 then (none, none, none)
            else (some v, d.scraped_at, some (pctError v sold_price))
  { property_id := p.property_id
    address := p.address
    suburb := p.suburb
    sold_price := sold_price
    sold_date := hs.sold_date
    sold_date_iso := hs.sold_date_iso.getD hs.date
    beds := hs.beds
    baths := hs.baths
    cars := hs.cars
    property_type := hs.property_type
    listed_price := listedFields.1
    listed_display := listedFields.2.1
    xgboost_price := xgbFields.1
    xgboost_date := xgbFields.2.1
    domain_estimate := domainFields.1
    domain_date := domainFields.2.1
    listed_error_pct := listedFields.2.2
    xgboost_error_pct := xgbFields.2.2
    domain_error_pct := domainFields.2.2 }

/-- The join of the sold-property query before DISTINCT and ORDER BY:
sold rows with positive price joined to their `properties` row. -/
def soldJoin (db : DB) : List (PropRow × HistoryRow) :=
  db.properties.flatMap (fun p =>
    (db.history.filter (fun h => h.property_id == p.property_id &&
      h.status == Status.sold && decide (0 < h.price_value))).map (fun h => (p, h)))

/-- `ORDER BY h_sold.sold_date_iso DESC, h_sold.date DESC` (NULLs last). -/
def soldOrd (a b : PropRow × HistoryRow) : Bool :=
  decide (optKey b.2.sold_date_iso < optKey a.2.sold_date_iso) ||
    (optKey a.2.sold_date_iso == optKey b.2.sold_date_iso &&
      decide (b.2.date ≤ a.2.date))

/-- The `sold_properties` result set of the accuracy report query. -/
def soldProperties (db : DB) : List (PropRow × HistoryRow) :=
  sortByOrd soldOrd (dedupAcc [] (soldJoin db))

/-- The per-source aggregate of the accuracy report. -/
structure SourceStats where
  count : Nat
  total_error : ℚ
  errors : List ℚ
  mape : Option ℚ
  median_error : Option ℚ
deriving DecidableEq, Repr

/-- Count / total-of-absolute / raw error list, then MAPE and the
floor-index median of the sorted absolute errors. -/
def statFor (getter : Comparison → Option ℚ) (cs : List Comparison) : SourceStats :=
  let errors := cs.filterMap getter
  let count := errors.length
  let total := (errors.map (fun e => |e|)).sum
  if count == 0 then
    { count := count, total_error := total, errors := errors,
      mape := none, median_error := none }
  else
    let sortedAbs := sortByOrd (fun a b => decide (a ≤ b)) (errors.map (fun e => |e|))
    { count := count, total_error := total, errors := errors,
      mape := some (round1 (total / (count : ℚ))),
      median_error := some (sortedAbs.getD (count / 2) 0) }

/-- The full return value of `get_prediction_accuracy_report`. -/
structure AccuracyReport where
  comparisons : List Comparison
  total_sold : Nat
  with_comparisons : Nat
  listed : SourceStats
  xgboost : SourceStats
  domain : SourceStats
deriving DecidableEq, Repr

/-- `PropertyDB.get_prediction_accuracy_report(days_back)`: computes a
cutoff date from `days_back` (which, as in the source, is bound and then
never used by any query), scans every SOLD row with positive price, builds
one comparison per sold row, keeps those with at least one populated
source, and aggregates per-source statistics. -/
def get_prediction_accuracy_report (db : DB) (now : Nat) (days_back : Nat) :
    AccuracyReport :=
  let cutoff_date := now - days_back
  let sold_properties := soldProperties db
  let comparisons := (sold_properties.map (fun q => mkComparison db q.1 q.2)).filter
    (fun c => c.listed_price.isSome || c.xgboost_price.isSome ||
      c.domain_estimate.isSome)
  { comparisons := comparisons
    total_sold := sold_properties.length
    with_comparisons := comparisons.length
    listed := statFor (fun c => c.listed_error_pct) comparisons
    xgboost := statFor (fun c => c.xgboost_error_pct) comparisons
    domain := statFor (fun c => c.domain_error_pct) comparisons }

theorem mem_insertOrd {α : Type} (le : α → α → Bool) (a x : α) (l : List α) :
    x ∈ insertOrd le a l ↔ x = a ∨ x ∈ l := by
  induction l with
  | nil => simp [insertOrd]
  | cons b t ih =>
      unfold insertOrd
      by_cases h : le a b = true
      · simp [h]
      · simp only [h, if_false, Bool.false_eq_true, List.mem_cons, ih]
        tauto

theorem mem_sortByOrd {α : Type} (le : α → α → Bool) (l : List α) (x : α) :
    x ∈ sortByOrd le l ↔ x ∈ l := by
  induction l with
  | nil => simp [sortByOrd]
  | cons a t ih =>
      rw [show sortByOrd le (a :: t) = insertOrd le a (sortByOrd le t) from rfl,
        mem_insertOrd, ih]
      simp [List.mem_cons]

theorem mem_dedupAcc {α : Type} [DecidableEq α] (l : List α) (x : α) :
    ∀ seen : List α, x ∈ dedupAcc seen l ↔ x ∈ l ∧ x ∉ seen := by
  induction l with
  | nil => intro seen; simp [dedupAcc]
  | cons a t ih =>
      intro seen
      unfold dedupAcc
      by_cases h : a ∈ seen
      · rw [if_pos h, ih seen]
        constructor
        · rintro ⟨hx, hs⟩; exact ⟨List.mem_cons_of_mem a hx, hs⟩
        · rintro ⟨hx, hs⟩
          rcases List.mem_cons.mp hx with rfl | hx2
          · exact absurd h hs
          · exact ⟨hx2, hs⟩
      · rw [if_neg h]
        constructor
        · intro hx
          rcases List.mem_cons.mp hx with rfl | hx2
          · exact ⟨List.mem_cons_self _ _, h⟩
          · obtain ⟨hxt, hxs⟩ := (ih (a :: seen)).mp hx2
            exact ⟨List.mem_cons_of_mem a hxt,
              fun hs => hxs (List.mem_cons_of_mem a hs)⟩
        · rintro ⟨hx, hs⟩
          rcases List.mem_cons.mp hx with rfl | hx2
          · exact List.mem_cons_self _ _
          · by_cases hxa : x = a
            · subst hxa; exact List.mem_cons_self _ _
            · refine List.mem_cons_of_mem a ((ih (a :: seen)).mpr ⟨hx2, ?_⟩)
              intro hmem
              rcases List.mem_cons.mp hmem with h1 | h2
              · exact hxa h1
              · exact hs h2

theorem mem_soldJoin (db : DB) (p : PropRow) (h : HistoryRow) :
    (p, h) ∈ soldJoin db ↔ p ∈ db.properties ∧ h ∈ db.history ∧
      h.property_id = p.property_id ∧ h.status = Status.sold ∧
      0 < h.price_value := by
  simp only [soldJoin, List.mem_flatMap, List.mem_map, List.mem_filter,
    Bool.and_eq_true, beq_iff_eq, decide_eq_true_eq, Prod.mk.injEq]
  constructor
  · rintro ⟨p2, hp2, h2, ⟨hmem, ⟨hpid, hst⟩, hpv⟩, rfl, rfl⟩
    exact ⟨hp2, hmem, hpid, hst, hpv⟩
  · rintro ⟨hp, hmem, hpid, hst, hpv⟩
    exact ⟨p, hp, h, ⟨hmem, ⟨hpid, hst⟩, hpv⟩, rfl, rfl⟩

theorem mem_soldProperties (db : DB) (p : PropRow) (h : HistoryRow) :
    (p, h) ∈ soldProperties db ↔ (p, h) ∈ soldJoin db := by
  unfold soldProperties
  rw [mem_sortByOrd, mem_dedupAcc]
  simp

/-- C10: the `days_back` parameter has no effect on the accuracy report, and
every SOLD row with positive price (joined to its property) is scanned
regardless of its age. -/
theorem days_back_no_effect (db : DB) (now d1 d2 : Nat) :
    get_prediction_accuracy_report db now d1 =
      get_prediction_accuracy_report db now d2 ∧
    ∀ (p : PropRow) (h : HistoryRow), p ∈ db.properties → h ∈ db.history →
      h.property_id = p.property_id → h.status = Status.sold →
      0 < h.price_value → (p, h) ∈ soldProperties db := by
  constructor
  · rfl
  · intro p h h1 h2 h3 h4 h5
    rw [mem_soldProperties, mem_soldJoin]
    exact ⟨h1, h2, h3, h4, h5⟩

def soldRowS : HistoryRow :=
  { baseRow with
    property_id := "S"
    date := 100
    status := Status.sold
    price_display := "$1,000,000 (01 Jun 2024)"
    price_value := 1000000
    sold_date := some "01 Jun 2024"
    sold_date_iso := some 100 }

def propS : PropRow :=
  { property_id := "S", address := "7 Eta St", suburb := "CASTLE HILL",
    first_seen := 90, url := "uS" }

/-- A third-party estimate produced five days after the sale event. -/
def estLate : EstRow :=
  { property_id := "S", estimate_mid := some 1200000, scraped_at := some 105 }

/-- Ledger with one sold property and a Domain estimate dated after the
sale. -/
def dbAcc1 : DB :=
  { properties := [propS],
    history := [soldRowS],
    xgboost_predictions := [],
    domain_estimates := [],
    domain_estimates_history := [estLate] }

/-- C1 evaluation: an EstimateRecord timestamped after the sale date (105 >
100) nevertheless contributes the Domain estimate and its error percentage
to the sold property's AccuracyComparison. -/
theorem no_look_ahead_violation_eval :
    soldRowS.sold_date_iso = some 100 ∧ estLate.scraped_at = some 105 ∧
    (get_prediction_accuracy_report dbAcc1 200 365).comparisons.map
      (fun c => (c.property_id, c.sold_date_iso, c.domain_estimate,
        c.domain_date, c.domain_error_pct.isSome)) =
      [("S", 100, some 1200000, some 105, true)] := by
  refine ⟨by decide, by decide, by decide⟩

def soldRowS8 : HistoryRow :=
  { baseRow with
    property_id := "S8"
    date := 100
    status := Status.sold
    price_display := "$1,000,000 (01 Jun 2024)"
    price_value := 1000000
    sold_date := some "01 Jun 2024"
    sold_date_iso := some 100 }

def saleRow90 : HistoryRow :=
  { baseRow with
    property_id := "S8"
    date := 90
    price_display := "$900,000"
    price_value := 900000 }

def saleRow110 : HistoryRow :=
  { baseRow with
    property_id := "S8"
    date := 110
    price_display := "$950,000"
    price_value := 950000 }

def propS8 : PropRow :=
  { property_id := "S8", address := "8 Theta St", suburb := "BAULKHAM HILLS",
    first_seen := 90, url := "uS8" }

/-- Ledger with a FOR_SALE snapshot dated after the SOLD capture date. -/
def dbAcc8 : DB :=
  { properties := [propS8],
    history := [soldRowS8, saleRow90, saleRow110],
    xgboost_predictions := [],
    domain_estimates := [],
    domain_estimates_history := [] }

/-- C8 evaluation: the listed-price source is the FOR_SALE snapshot of date
110, which is at-or-after the sale's capture date 100; the snapshot of date
90 (the final asking price strictly before the sale) is not the one
selected. -/
theorem listed_price_no_date_bound_eval :
    soldRowS8.date = 100 ∧ saleRow110.date = 110 ∧
    saleRow110.status = Status.sale ∧
    (get_prediction_accuracy_report dbAcc8 200 365).comparisons.map
      (fun c => (c.property_id, c.listed_price, c.listed_display)) =
      [("S8", some 950000, some "$950,000")] := by
  refine ⟨by decide, by decide, by decide, by decide⟩

theorem days_back_no_effect_witness :
    get_prediction_accuracy_report dbAcc1 200 100 =
      get_prediction_accuracy_report dbAcc1 200 365 ∧
    (propS, soldRowS) ∈ soldProperties dbAcc1 := by
  have h := days_back_no_effect dbAcc1 200 100 365
  exact ⟨h.1, h.2 propS soldRowS (by decide) (by decide) (by decide)
    (by decide) (by decide)⟩

/-! ## Rolling aggregate calculator -/

/-- Python `str.upper()` on ASCII suburb names. -/
def asciiUpper (c : Char) : Char :=
  if 97 ≤ c.toNat && c.toNat ≤ 122 then Char.ofNat (c.toNat - 32) else c

def pyUpper (s : String) : String := ⟨s.data.map asciiUpper⟩

/-- A row of the training DataFrame as `compute_rolling_avg_price_per_m2`
reads it: `suburb`, `price_per_m2` (NaN as `none`) and `sold_date_parsed`
(NaT as `none`). -/
structure DFRow where
  suburb : String
  price_per_m2 : Option ℚ
  sold_date_parsed : Option Int
deriving DecidableEq, Repr

/-- `df["price_per_m2"].notna() & (df["price_per_m2"] > 0)`; comparisons
against NaN are False. -/
def ppm2pos : Option ℚ → Bool
  | some q => decide (0 < q)
  | none => false

/-- `(df["sold_date_parsed"] < current) & (df["sold_date_parsed"] >= cutoff)`;
comparisons against NaT are False. -/
def inWindow (current cutoff : Int) : Option Int → Bool
  | some t => decide (t < current) && decide (cutoff ≤ t)
  | none => false

/-- `compute_rolling_avg_price_per_m2(df, current_date, suburb,
lookback_days)`: suburb mean over the lookback window when at least 5
samples qualify, else the cross-suburb mean over the same window when at
least 5 qualify, else the constant `5000.0`. -/
def compute_rolling_avg_price_per_m2 (df : List DFRow) (current : Int)
    (suburb : String) (lookback_days : Int := 180) : ℚ :=
  let cutoff := current - lookback_days
  let subset := (df.filter (fun r => pyUpper r.suburb == pyUpper suburb &&
      ppm2pos r.price_per_m2 && inWindow current cutoff r.sold_date_parsed)).filterMap
    (fun r => r.price_per_m2)
  if 5 ≤ subset.length then subset.sum / (subset.length : ℚ)
  else
    let overall := (df.filter (fun r => ppm2pos r.price_per_m2 &&
        inWindow current cutoff r.sold_date_parsed)).filterMap
      (fun r => r.price_per_m2)
    if 5 ≤ overall.length then overall.sum / (overall.length : ℚ)
    else 5000

/-- The samples of the half-open window [asOfDate − 180, asOfDate) within
one suburb, stated independently of the pandas mask. -/
def suburbWindowSamples (df : List DFRow) (current : Int) (suburb : String) :
    List ℚ :=
  df.filterMap (fun r =>
    match r.price_per_m2, r.sold_date_parsed with
    | some q, some t =>
        if pyUpper r.suburb = pyUpper suburb ∧ 0 < q ∧
            current - 180 ≤ t ∧ t < current then some q else none
    | _, _ => none)

/-- The samples of the same window across all suburbs. -/
def allWindowSamples (df : List DFRow) (current : Int) : List ℚ :=
  df.filterMap (fun r =>
    match r.price_per_m2, r.sold_date_parsed with
    | some q, some t =>
        if 0 < q ∧ current - 180 ≤ t ∧ t < current then some q else none
    | _, _ => none)

theorem filterMap_filter {α β : Type} (P : α → Bool) (f : α → Option β)
    (l : List α) :
    (l.filter P).filterMap f = l.filterMap (fun a => if P a then f a else none) := by
  induction l with
  | nil => rfl
  | cons a t ih =>
      by_cases h : P a = true
      · simp [List.filter_cons, h, List.filterMap_cons, ih]
      · simp [List.filter_cons, h, List.filterMap_cons, ih]

theorem subset_eq_suburbWindowSamples (df : List DFRow) (current : Int)
    (suburb : String) :
    ((df.filter (fun r => pyUpper r.suburb == pyUpper suburb &&
        ppm2pos r.price_per_m2 &&
        inWindow current (current - 180) r.sold_date_parsed)).filterMap
      (fun r => r.price_per_m2)) = suburbWindowSamples df current suburb := by
  rw [filterMap_filter]
  unfold suburbWindowSamples
  congr 1
  funext r
  cases hq : r.price_per_m2 with
  | none => cases ht : r.sold_date_parsed <;> simp [ppm2pos, hq]
  | some q =>
      cases ht : r.sold_date_parsed with
      | none => simp [ppm2pos, inWindow, hq, ht]
      | some t =>
          simp only [ppm2pos, inWindow, hq, ht, Bool.and_eq_true, beq_iff_eq,
            decide_eq_true_eq]
          exact if_congr (by tauto) rfl rfl

theorem overall_eq_allWindowSamples (df : List DFRow) (current : Int) :
    ((df.filter (fun r => ppm2pos r.price_per_m2 &&
        inWindow current (current - 180) r.sold_date_parsed)).filterMap
      (fun r => r.price_per_m2)) = allWindowSamples df current := by
  rw [filterMap_filter]
  unfold allWindowSamples
  congr 1
  funext r
  cases hq : r.price_per_m2 with
  | none => cases ht : r.sold_date_parsed <;> simp [ppm2pos, hq]
  | some q =>
      cases ht : r.sold_date_parsed with
      | none => simp [ppm2pos, inWindow, hq, ht]
      | some t =>
          simp only [ppm2pos, inWindow, hq, ht, Bool.and_eq_true, beq_iff_eq,
            decide_eq_true_eq]
          exact if_congr (by tauto) rfl rfl

/-- C9: the rolling average at lookback 180 is the suburb mean over the
half-open window [asOfDate − 180, asOfDate) when at least 5 samples exist,
otherwise the cross-suburb mean over the same window when that has at least
5 samples, otherwise the constant 5000. -/
theorem rolling_avg_window_and_fallback (df : List DFRow) (current : Int)
    (suburb : String) :
    compute_rolling_avg_price_per_m2 df current suburb 180 =
      if 5 ≤ (suburbWindowSamples df current suburb).length then
        (suburbWindowSamples df current suburb).sum /
          ((suburbWindowSamples df current suburb).length : ℚ)
      else if 5 ≤ (allWindowSamples df current).length then
        (allWindowSamples df current).sum /
          ((allWindowSamples df current).length : ℚ)
      else 5000 := by
  unfold compute_rolling_avg_price_per_m2
  simp only [subset_eq_suburbWindowSamples, overall_eq_allWindowSamples]
